import Mathlib

/-!
Verification of the ladybug-display attribute/validation layer:
a shallow embedding of the display-wrapper base classes
(`ladybug_display/geometry2d/_base.py`), the extension hook
(`ladybug_display/_extend_ladybug.py`), and the serialization and
pass-through behavior described in the specification for the
display wrapper classes.
-/

namespace LadybugDisplay

/-- Modelled from the spec: the fixed enumerated set of line types
(`LINE_TYPES` lives in `ladybug_display/_base.py`, which is not among the
sampled sources); the spec lists Continuous, Dashed, Dotted, DashDot. -/
def LINE_TYPES : List String := ["Continuous", "Dashed", "Dotted", "DashDot"]

/-- Modelled from the spec: the fixed enumerated set of display modes
(`DISPLAY_MODES` lives in `ladybug_display/_base.py`, which is not among the
sampled sources); the spec lists Surface, SurfaceWithEdges, Wireframe. -/
def DISPLAY_MODES : List String := ["Surface", "SurfaceWithEdges", "Wireframe"]

/-- Python's `str.lower()` restricted to ASCII, which covers every enumerated
member the setters compare against. -/
def pyLower (s : String) : String := ⟨s.data.map Char.toLower⟩

/-- The `for key in KEYS ... if key.lower() == clean_input: value = key; break`
loop shared by the `line_type` and `display_mode` setters: find the first
member whose lowercase form equals the already-lowered input. -/
def matchEnumMember (keys : List String) (cleanInput : String) : Option String :=
  keys.find? (fun key => pyLower key == cleanInput)

/-- The `_LineCurveBase2D.line_type` setter body on a string input: case-insensitive
match against `LINE_TYPES`, canonicalizing to the member's casing; otherwise the
documented `ValueError` whose message lists the valid set. -/
def lineTypeValidate (value : String) : Except String String :=
  match matchEnumMember LINE_TYPES (pyLower value) with
  | some key => .ok key
  | none => .error ("line_type " ++ value ++ " is not recognized.\nChoose from the "
      ++ "following:\n" ++ toString LINE_TYPES)

/-- The `_SingleColorModeBase2D.display_mode` setter body on a string input. -/
def displayModeValidate (value : String) : Except String String :=
  match matchEnumMember DISPLAY_MODES (pyLower value) with
  | some key => .ok key
  | none => .error ("display_mode " ++ value ++ " is not recognized.\nChoose from the "
      ++ "following:\n" ++ toString DISPLAY_MODES)

/-- The external `ladybug.color.Color` value: four channel components. -/
structure Color where
  r : ℕ
  g : ℕ
  b : ℕ
  a : ℕ
  deriving DecidableEq, Repr

/-- The value `Color(0, 0, 0)`: the external constructor defaults alpha to 255,
so this is opaque black. -/
def Color.black : Color := ⟨0, 0, 0, 255⟩

/-- A Python value passed to the `color` setter: the `None` sentinel, a
`Color` instance, or a value of any other type (carrying its type name). -/
inductive PyColorVal where
  | none
  | color (c : Color)
  | other (typeName : String)
  deriving DecidableEq, Repr

/-- A Python exception, distinguished by its class. -/
inductive PyErr where
  | valueError (msg : String)
  | attributeError (msg : String)
  | assertionError (msg : String)
  | typeError (msg : String)
  deriving DecidableEq, Repr

/-- The `_SingleColorBase2D.color` setter body: `None` becomes `Color(0, 0, 0)`
(opaque black); a `Color` is stored as-is; anything else trips the
`assert isinstance(value, Color)` with a message naming the received type. -/
def colorValidate : PyColorVal → Except PyErr Color
  | .none => .ok Color.black
  | .color c => .ok c
  | .other typeName => .error (.assertionError
      ("Expected Color for ladybug_display object color. Got " ++ typeName ++ "."))

/-- The stored `line_width`: the `Default` sentinel object or a number. -/
inductive LineWidth where
  | default
  | val (q : ℚ)
  deriving DecidableEq, Repr

/-- Modelled from the spec: `float_positive(value, label)`
(`ladybug_display/typing.py` is not among the sampled sources) returns the
value coerced to a float when it is strictly greater than zero and fails with
a `ValueError`-equivalent naming the offending field and value otherwise. -/
def float_positive (value : ℚ) (label : String) : Except String ℚ :=
  if 0 < value then .ok value
  else .error ("Input number for " ++ label ++ " must be positive. Got "
      ++ toString value ++ ".")

/-- The `_LineCurveBase2D.line_width` setter body: the `default` sentinel is
stored as-is; anything else goes through `float_positive` labeled
'line width'. -/
def lineWidthValidate : LineWidth → Except PyErr LineWidth
  | .default => .ok .default
  | .val q =>
    match float_positive q "line width" with
    | .ok f => .ok (.val f)
    | .error e => .error (.valueError e)

/-- A Python value passed to a string-normalizing setter: a `str`; a `bytes`
value (a non-string that nevertheless has `.lower()`, by its ASCII content);
or a value of a type with no `.lower()` (carrying its type name), such as
`None` or a number. -/
inductive PyStrVal where
  | str (s : String)
  | bytes (b : String)
  | nonStr (typeName : String)
  deriving DecidableEq, Repr

/-- Whether a Python value is a `str`. -/
def isPyStr : PyStrVal → Bool
  | .str _ => true
  | .bytes _ => false
  | .nonStr _ => false

/-- The result of `value.lower()` when the attribute exists: a lowered `str`
or a lowered `bytes`. -/
inductive PyLowered where
  | str (s : String)
  | bytes (b : String)
  deriving DecidableEq, Repr

/-- The attribute access `value.lower()`: succeeds on `str` and on `bytes`
(both have the method in Python 3), raises `AttributeError` otherwise. -/
def pyLowerAttr : PyStrVal → Except PyErr PyLowered
  | .str s => .ok (.str (pyLower s))
  | .bytes b => .ok (.bytes (pyLower b))
  | .nonStr typeName => .error (.attributeError
      (typeName ++ " object has no attribute lower"))

/-- Python 3 equality between a `str` (a lowered enum member) and the lowered
input: compares contents for `str`, and is always `False` against `bytes`. -/
def strEqPy (k : String) : PyLowered → Bool
  | .str s => k == s
  | .bytes _ => false

/-- The setter loop `for key in KEYS ... if key.lower() == clean_input` run
against the lowered input value. -/
def matchEnumMemberPy (keys : List String) (clean : PyLowered) : Option String :=
  keys.find? (fun key => strEqPy (pyLower key) clean)

/-- How `'{}'.format(value)` renders the setter input in the error message. -/
def pyFormat : PyStrVal → String
  | .str s => s
  | .bytes b => "b'" ++ b ++ "'"
  | .nonStr typeName => typeName

/-- The class `_SingleColorBase2D`: geometry, a single color, and `user_data`. -/
structure SingleColorBase2D (G U : Type) where
  geometry : G
  color : Color
  user_data : U
  deriving DecidableEq, Repr

/-- The class `_SingleColorModeBase2D`: adds `display_mode` to the color level. -/
structure SingleColorModeBase2D (G U : Type) where
  geometry : G
  color : Color
  display_mode : String
  user_data : U
  deriving DecidableEq, Repr

/-- The class `_LineCurveBase2D`: adds `line_width` and `line_type` to the color
level. -/
structure LineCurveBase2D (G U : Type) where
  geometry : G
  color : Color
  line_width : LineWidth
  line_type : String
  user_data : U
  deriving DecidableEq, Repr

/-- The method `_SingleColorBase2D._transfer_attributes`: `self._color = other._color`. -/
def SingleColorBase2D.transferAttributes (target source : SingleColorBase2D G U) :
    SingleColorBase2D G U :=
  { target with color := source.color }

/-- The method `_SingleColorModeBase2D._transfer_attributes`: copies `_color` and
`_display_mode` from the other object. -/
def SingleColorModeBase2D.transferAttributes
    (target source : SingleColorModeBase2D G U) : SingleColorModeBase2D G U :=
  { target with color := source.color, display_mode := source.display_mode }

/-- The method `_LineCurveBase2D._transfer_attributes`: copies `_color`, `_line_width`
and `_line_type` from the other object. -/
def LineCurveBase2D.transferAttributes
    (target source : LineCurveBase2D G U) : LineCurveBase2D G U :=
  { target with color := source.color, line_width := source.line_width,
                line_type := source.line_type }

/-- The operations the wrapped (external) geometry value supports; the
wrapper's transform methods delegate to these. -/
structure GeometryOps (G V P : Type) where
  move : G → V → G
  rotate : G → ℝ → P → G
  reflect : G → V → P → G
  scale : G → ℝ → Option P → G

/-- Python's `math.radians(angle)`. -/
noncomputable def radians (angle : ℝ) : ℝ := angle * Real.pi / 180

/-- The method `_DisplayBase2D.move`: `self._geometry = self.geometry.move(moving_vec)`. -/
def LineCurveBase2D.move (ops : GeometryOps G V P) (w : LineCurveBase2D G U)
    (moving_vec : V) : LineCurveBase2D G U :=
  { w with geometry := ops.move w.geometry moving_vec }

/-- The method `_DisplayBase2D.rotate`:
`self._geometry = self.geometry.rotate(math.radians(angle), origin)`. -/
noncomputable def LineCurveBase2D.rotate (ops : GeometryOps G V P)
    (w : LineCurveBase2D G U) (angle : ℝ) (origin : P) : LineCurveBase2D G U :=
  { w with geometry := ops.rotate w.geometry (radians angle) origin }

/-- The method `_DisplayBase2D.reflect`:
`self._geometry = self.geometry.reflect(normal, origin)`. -/
def LineCurveBase2D.reflect (ops : GeometryOps G V P) (w : LineCurveBase2D G U)
    (normal : V) (origin : P) : LineCurveBase2D G U :=
  { w with geometry := ops.reflect w.geometry normal origin }

/-- The method `_DisplayBase2D.scale`:
`self._geometry = self.geometry.scale(factor, origin)`. -/
def LineCurveBase2D.scale (ops : GeometryOps G V P) (w : LineCurveBase2D G U)
    (factor : ℝ) (origin : Option P) : LineCurveBase2D G U :=
  { w with geometry := ops.scale w.geometry factor origin }

/-- The method `move` as inherited by `_SingleColorModeBase2D` instances. -/
def SingleColorModeBase2D.move (ops : GeometryOps G V P)
    (w : SingleColorModeBase2D G U) (moving_vec : V) : SingleColorModeBase2D G U :=
  { w with geometry := ops.move w.geometry moving_vec }

/-- The method `rotate` as inherited by `_SingleColorModeBase2D` instances. -/
noncomputable def SingleColorModeBase2D.rotate (ops : GeometryOps G V P)
    (w : SingleColorModeBase2D G U) (angle : ℝ) (origin : P) :
    SingleColorModeBase2D G U :=
  { w with geometry := ops.rotate w.geometry (radians angle) origin }

/-- The method `reflect` as inherited by `_SingleColorModeBase2D` instances. -/
def SingleColorModeBase2D.reflect (ops : GeometryOps G V P)
    (w : SingleColorModeBase2D G U) (normal : V) (origin : P) :
    SingleColorModeBase2D G U :=
  { w with geometry := ops.reflect w.geometry normal origin }

/-- The method `scale` as inherited by `_SingleColorModeBase2D` instances. -/
def SingleColorModeBase2D.scale (ops : GeometryOps G V P)
    (w : SingleColorModeBase2D G U) (factor : ℝ) (origin : Option P) :
    SingleColorModeBase2D G U :=
  { w with geometry := ops.scale w.geometry factor origin }

/-- The `color` setter run against a `_LineCurveBase2D` instance, statement by
statement: validation (the `assert`) precedes the single assignment, so the
returned state is the object's state at the point the setter finishes or
raises. -/
def LineCurveBase2D.setColorPy (w : LineCurveBase2D G U) (value : PyColorVal) :
    LineCurveBase2D G U × Option PyErr :=
  match colorValidate value with
  | .ok c => ({ w with color := c }, none)
  | .error e => (w, some e)

/-- The `line_width` setter run against a `_LineCurveBase2D` instance,
statement by statement: `float_positive` runs before the assignment. -/
def LineCurveBase2D.setLineWidthPy (w : LineCurveBase2D G U) (value : LineWidth) :
    LineCurveBase2D G U × Option PyErr :=
  match lineWidthValidate value with
  | .ok lw => ({ w with line_width := lw }, none)
  | .error e => (w, some e)

/-- The `line_type` setter run against a `_LineCurveBase2D` instance,
statement by statement. `clean_input = value.lower()` is the first statement,
so an input without a `.lower()` raises `AttributeError` there; the loop and
the `raise ValueError` (formatting the original input) run before the single
assignment. -/
def LineCurveBase2D.setLineTypePy (w : LineCurveBase2D G U) (value : PyStrVal) :
    LineCurveBase2D G U × Option PyErr :=
  match pyLowerAttr value with
  | .error e => (w, some e)
  | .ok clean =>
    match matchEnumMemberPy LINE_TYPES clean with
    | some key => ({ w with line_type := key }, none)
    | none => (w, some (.valueError
        ("line_type " ++ pyFormat value ++ " is not recognized.\nChoose from the "
          ++ "following:\n" ++ toString LINE_TYPES)))

/-- The `color` setter run against a `_SingleColorModeBase2D` instance. -/
def SingleColorModeBase2D.setColorPy (w : SingleColorModeBase2D G U)
    (value : PyColorVal) : SingleColorModeBase2D G U × Option PyErr :=
  match colorValidate value with
  | .ok c => ({ w with color := c }, none)
  | .error e => (w, some e)

/-- The `display_mode` setter run against a `_SingleColorModeBase2D` instance,
statement by statement; `clean_input = value.lower()` comes first, the single
assignment last. -/
def SingleColorModeBase2D.setDisplayModePy (w : SingleColorModeBase2D G U)
    (value : PyStrVal) : SingleColorModeBase2D G U × Option PyErr :=
  match pyLowerAttr value with
  | .error e => (w, some e)
  | .ok clean =>
    match matchEnumMemberPy DISPLAY_MODES clean with
    | some key => ({ w with display_mode := key }, none)
    | none => (w, some (.valueError
        ("display_mode " ++ pyFormat value ++ " is not recognized.\nChoose from the "
          ++ "following:\n" ++ toString DISPLAY_MODES)))

/-- The external `ladybug_geometry` `Point3D` value (`Point3D(x, y)` defaults
`z` to 0). -/
structure Point3 where
  x : ℝ
  y : ℝ
  z : ℝ
  deriving Inhabited

/-- Euclidean distance between two points, as the external geometry library
computes segment lengths. -/
noncomputable def Point3.dist (p q : Point3) : ℝ :=
  Real.sqrt ((q.x - p.x) ^ 2 + (q.y - p.y) ^ 2 + (q.z - p.z) ^ 2)

/-- The external `LineSegment3D` value, by its two endpoints. -/
structure Segment3 where
  p1 : Point3
  p2 : Point3
  deriving Inhabited

/-- A segment's length. -/
noncomputable def Segment3.length (s : Segment3) : ℝ := s.p1.dist s.p2

/-- The external `Polyline3D` value: an ordered list of vertices. -/
structure Polyline3 where
  vertices : List Point3

/-- The segments of a polyline: one per consecutive vertex pair. -/
def Polyline3.segments (pl : Polyline3) : List Segment3 :=
  (pl.vertices.zip pl.vertices.tail).map (fun pq => ⟨pq.1, pq.2⟩)

/-- The length of a polyline: the sum of its segment lengths. -/
noncomputable def Polyline3.length (pl : Polyline3) : ℝ :=
  (pl.segments.map Segment3.length).sum

/-- The accessor `Polyline3D.p1`: the first vertex. -/
def Polyline3.p1 (pl : Polyline3) : Point3 := pl.vertices.headI

/-- The accessor `Polyline3D.p2`: the last vertex. -/
def Polyline3.p2 (pl : Polyline3) : Point3 := pl.vertices.getLastI

/-- Modelled from the spec: `DisplayPolyline3D`
(`ladybug_display/geometry3d/polyline.py` is not among the sampled sources)
composes the line-like attribute base with pass-through accessors exposing the
wrapped geometry's own derived properties; `length` delegates to the wrapped
polyline. -/
noncomputable def displayPolylineLength (w : LineCurveBase2D Polyline3 U) : ℝ :=
  w.geometry.length

/-- Modelled from the spec: the `segments` pass-through accessor of
`DisplayPolyline3D`. -/
def displayPolylineSegments (w : LineCurveBase2D Polyline3 U) : List Segment3 :=
  w.geometry.segments

/-- Modelled from the spec: the `p1` pass-through accessor of
`DisplayPolyline3D`. -/
def displayPolylineP1 (w : LineCurveBase2D Polyline3 U) : Point3 :=
  w.geometry.p1

/-- Modelled from the spec: the `p2` pass-through accessor of
`DisplayPolyline3D`. -/
def displayPolylineP2 (w : LineCurveBase2D Polyline3 U) : Point3 :=
  w.geometry.p2

/-- A Python function object that can be attached to a class. -/
inductive PyFunc where
  | compass_to_vis_set
  | sunpath_to_vis_set
  | other (n : ℕ)
  deriving DecidableEq, Repr

/-- A Python class modelled by its attribute table. -/
def ClassAttrs : Type := String → Option PyFunc

/-- Python class attribute assignment, `Cls.attr = f`. -/
def setattrClass (cls : ClassAttrs) (name : String) (f : PyFunc) : ClassAttrs :=
  fun n => if n = name then some f else cls n

/-- The process state the extension module touches: the attribute tables of
the two externally defined classes. -/
structure ExtState where
  compassCls : ClassAttrs
  sunpathCls : ClassAttrs

/-- The `_extend_ladybug.py` import-time effect:
`Compass.to_vis_set = compass_to_vis_set` and
`Sunpath.to_vis_set = sunpath_to_vis_set`. -/
def extendLadybug (st : ExtState) : ExtState :=
  { compassCls := setattrClass st.compassCls "to_vis_set" .compass_to_vis_set,
    sunpathCls := setattrClass st.sunpathCls "to_vis_set" .sunpath_to_vis_set }

/-- A Python dictionary value as produced by `to_dict`: strings, ints,
floats (exact rationals here), lists, and string-keyed mappings. -/
inductive DVal where
  | str (s : String)
  | int (n : ℤ)
  | num (q : ℚ)
  | arr (items : List DVal)
  | obj (fields : List (String × DVal))

/-- A rational-coordinate point, as the external geometry library stores
coordinates (exact stand-in for Python floats). -/
structure Point3Q where
  x : ℚ
  y : ℚ
  z : ℚ
  deriving DecidableEq, Repr

/-- The external `Polyline3D` value for serialization purposes. -/
structure PolylineQ where
  vertices : List Point3Q
  deriving DecidableEq, Repr

/-- The external `Cylinder` value: center, axis and radius. -/
structure CylinderQ where
  center : Point3Q
  axis : Point3Q
  radius : ℚ
  deriving DecidableEq, Repr

/-- The external library's serialization of a point: a coordinate array. -/
def Point3Q.toDict (p : Point3Q) : DVal := .arr [.num p.x, .num p.y, .num p.z]

/-- The external library's deserialization of a point. -/
def Point3Q.fromDict : DVal → Except String Point3Q
  | .arr [.num x, .num y, .num z] => .ok ⟨x, y, z⟩
  | _ => .error "expected an array of 3 numbers for Point3D"

/-- Deserialize a list of points, failing on the first malformed entry. -/
def parsePoints : List DVal → Except String (List Point3Q)
  | [] => .ok []
  | d :: rest => do
    let p ← Point3Q.fromDict d
    let ps ← parsePoints rest
    return p :: ps

/-- The external library's `Polyline3D.to_dict`. -/
def PolylineQ.toDict (pl : PolylineQ) : DVal :=
  .obj [("type", .str "Polyline3D"),
        ("vertices", .arr (pl.vertices.map Point3Q.toDict))]

/-- The external library's `Polyline3D.from_dict`: checks the type tag and
rebuilds the vertices. -/
def PolylineQ.fromDict : DVal → Except String PolylineQ
  | .obj fields =>
    match fields.lookup "type", fields.lookup "vertices" with
    | some (.str "Polyline3D"), some (.arr items) => do
      let pts ← parsePoints items
      return ⟨pts⟩
    | _, _ => .error "invalid Polyline3D dictionary"
  | _ => .error "expected a dictionary for Polyline3D"

/-- The external library's `Cylinder.to_dict`. -/
def CylinderQ.toDict (c : CylinderQ) : DVal :=
  .obj [("type", .str "Cylinder"),
        ("center", c.center.toDict),
        ("axis", c.axis.toDict),
        ("radius", .num c.radius)]

/-- The external library's `Cylinder.from_dict`. -/
def CylinderQ.fromDict : DVal → Except String CylinderQ
  | .obj fields =>
    match fields.lookup "type", fields.lookup "center",
          fields.lookup "axis", fields.lookup "radius" with
    | some (.str "Cylinder"), some cen, some ax, some (.num r) => do
      let c ← Point3Q.fromDict cen
      let a ← Point3Q.fromDict ax
      return ⟨c, a, r⟩
    | _, _, _, _ => .error "invalid Cylinder dictionary"
  | _ => .error "expected a dictionary for Cylinder"

/-- The external `Color.to_dict`: the RGBA components as ints. -/
def colorToDict (c : Color) : DVal :=
  .obj [("r", .int c.r), ("g", .int c.g), ("b", .int c.b), ("a", .int c.a)]

/-- The external `Color.from_dict`: rebuilds through the constructor, which
validates that each channel is in 0..255. -/
def colorFromDict : DVal → Except String Color
  | .obj fields =>
    match fields.lookup "r", fields.lookup "g",
          fields.lookup "b", fields.lookup "a" with
    | some (.int r), some (.int g), some (.int b), some (.int a) =>
      if 0 ≤ r ∧ r ≤ 255 ∧ 0 ≤ g ∧ g ≤ 255 ∧ 0 ≤ b ∧ b ≤ 255 ∧ 0 ≤ a ∧ a ≤ 255
      then .ok ⟨r.toNat, g.toNat, b.toNat, a.toNat⟩
      else .error "Color channels must be in 0..255"
    | _, _, _, _ => .error "invalid Color dictionary"
  | _ => .error "expected a dictionary for Color"

/-- Serialization of `line_width`: the sentinel becomes the tagged
`Default` mapping; a number is stored as the number. -/
def lineWidthToDict : LineWidth → DVal
  | .default => .obj [("type", .str "Default")]
  | .val q => .num q

/-- Deserialization of `line_width`: the tagged `Default` mapping becomes the
sentinel; a number goes back through the `float_positive` setter validation. -/
def lineWidthFromDict : DVal → Except String LineWidth
  | .obj [("type", .str "Default")] => .ok .default
  | .num q =>
    match float_positive q "line width" with
    | .ok f => .ok (.val f)
    | .error e => .error e
  | _ => .error "invalid line_width value"

/-- Modelled from the spec: `DisplayPolyline3D.to_dict`
(`ladybug_display/geometry3d/polyline.py` is not among the sampled sources)
produces the type tag, the delegated geometry dict, each attribute's
serialized value, and `user_data` when present. -/
def displayPolylineToDict (w : LineCurveBase2D PolylineQ (Option DVal)) : DVal :=
  .obj ([("type", .str "DisplayPolyline3D"),
         ("geometry", w.geometry.toDict),
         ("color", colorToDict w.color),
         ("line_width", lineWidthToDict w.line_width),
         ("line_type", .str w.line_type)]
    ++ (match w.user_data with
        | some d => [("user_data", d)]
        | none => []))

/-- Modelled from the spec: `DisplayPolyline3D.from_dict` validates the type
tag, rebuilds the geometry through the library deserializer, and rebuilds each
attribute through the same setter validation used at construction. -/
def displayPolylineFromDict (d : DVal) :
    Except String (LineCurveBase2D PolylineQ (Option DVal)) :=
  match d with
  | .obj fields =>
    match fields.lookup "type" with
    | some (.str "DisplayPolyline3D") =>
      match fields.lookup "geometry", fields.lookup "color",
            fields.lookup "line_width", fields.lookup "line_type" with
      | some gd, some cd, some lwd, some (.str lt) => do
        let geometry ← PolylineQ.fromDict gd
        let color ← colorFromDict cd
        let line_width ← lineWidthFromDict lwd
        let line_type ← lineTypeValidate lt
        return ⟨geometry, color, line_width, line_type, fields.lookup "user_data"⟩
      | _, _, _, _ => .error "invalid DisplayPolyline3D dictionary"
    | _ => .error "Expected DisplayPolyline3D dictionary"
  | _ => .error "expected a dictionary for DisplayPolyline3D"

/-- Modelled from the spec: `DisplayCylinder.to_dict`
(`ladybug_display/geometry3d/cylinder.py` is not among the sampled sources). -/
def displayCylinderToDict (w : SingleColorModeBase2D CylinderQ (Option DVal)) :
    DVal :=
  .obj ([("type", .str "DisplayCylinder"),
         ("geometry", w.geometry.toDict),
         ("color", colorToDict w.color),
         ("display_mode", .str w.display_mode)]
    ++ (match w.user_data with
        | some d => [("user_data", d)]
        | none => []))

/-- Modelled from the spec: `DisplayCylinder.from_dict`. -/
def displayCylinderFromDict (d : DVal) :
    Except String (SingleColorModeBase2D CylinderQ (Option DVal)) :=
  match d with
  | .obj fields =>
    match fields.lookup "type" with
    | some (.str "DisplayCylinder") =>
      match fields.lookup "geometry", fields.lookup "color",
            fields.lookup "display_mode" with
      | some gd, some cd, some (.str dm) => do
        let geometry ← CylinderQ.fromDict gd
        let color ← colorFromDict cd
        let display_mode ← displayModeValidate dm
        return ⟨geometry, color, display_mode, fields.lookup "user_data"⟩
      | _, _, _ => .error "invalid DisplayCylinder dictionary"
    | _ => .error "Expected DisplayCylinder dictionary"
  | _ => .error "expected a dictionary for DisplayCylinder"

/-- A `Color` whose channels passed the external constructor validation. -/
def colorValidB (c : Color) : Bool :=
  c.r ≤ 255 && c.g ≤ 255 && c.b ≤ 255 && c.a ≤ 255

/-- A `line_width` that a setter could have stored: the sentinel or a
strictly positive number. -/
def lineWidthValidB : LineWidth → Bool
  | .default => true
  | .val q => 0 < q

/-- A `DisplayPolyline3D` whose attributes passed their setters. -/
def validPolylineWrapper (w : LineCurveBase2D PolylineQ (Option DVal)) : Bool :=
  colorValidB w.color && lineWidthValidB w.line_width
    && decide (w.line_type ∈ LINE_TYPES)

/-- A `DisplayCylinder` whose attributes passed their setters. -/
def validCylinderWrapper (w : SingleColorModeBase2D CylinderQ (Option DVal)) :
    Bool :=
  colorValidB w.color && decide (w.display_mode ∈ DISPLAY_MODES)

/-- The polyline of the test scenario: a square path of side 2 through
(0,0), (2,0), (2,2), (0,2), with `z` defaulted to 0. -/
def squarePolyline : Polyline3 :=
  ⟨[⟨0, 0, 0⟩, ⟨2, 0, 0⟩, ⟨2, 2, 0⟩, ⟨0, 2, 0⟩]⟩

/-- The wrapper `DisplayPolyline3D(Polyline3D(pts), grey)` from the test: default
`line_width` and `line_type`. -/
def squareDisplayPolyline : LineCurveBase2D Polyline3 Unit :=
  ⟨squarePolyline, ⟨100, 100, 100, 255⟩, .default, "Continuous", ()⟩

/-- A concrete line-curve wrapper used to exercise the setters. -/
def sampleLineCurve : LineCurveBase2D Unit Unit :=
  ⟨(), Color.black, .default, "Continuous", ()⟩

/-- A concrete color-and-mode wrapper used to exercise the setters. -/
def sampleColorMode : SingleColorModeBase2D Unit Unit :=
  ⟨(), Color.black, "Surface", ()⟩

/-- Class attribute tables before the extension module loads. -/
def freshExtState : ExtState := ⟨fun _ => none, fun _ => none⟩

/-- The serializable polyline wrapper of the round-trip test:
grey color, `line_width` 2, `line_type` 'Dashed'. -/
def samplePolylineWrapper : LineCurveBase2D PolylineQ (Option DVal) :=
  ⟨⟨[⟨0, 0, 0⟩, ⟨2, 0, 0⟩, ⟨2, 2, 0⟩, ⟨0, 2, 0⟩]⟩,
    ⟨100, 100, 100, 255⟩, .val 2, "Dashed", none⟩

/-- The serializable cylinder wrapper of the round-trip test:
center (2,0,2), axis (0,2,2), radius 0.7, grey color. -/
def sampleCylinderWrapper : SingleColorModeBase2D CylinderQ (Option DVal) :=
  ⟨⟨⟨2, 0, 2⟩, ⟨0, 2, 2⟩, 7 / 10⟩, ⟨100, 100, 100, 255⟩, "Surface", none⟩

/-- C3: at every level of the attribute mix-in hierarchy,
`_transfer_attributes` copies the attributes of its own level and of every
ancestor level, so after the call each display attribute of the target equals
the corresponding attribute of the source (color for `_SingleColorBase2D`;
color and display_mode for `_SingleColorModeBase2D`; color, line_width and
line_type for `_LineCurveBase2D`). -/
theorem transfer_attributes_no_attribute_dropped {G U : Type}
    (tc sc : SingleColorBase2D G U) (tm sm : SingleColorModeBase2D G U)
    (tl sl : LineCurveBase2D G U) :
    (tc.transferAttributes sc).color = sc.color ∧
    ((tm.transferAttributes sm).color = sm.color ∧
      (tm.transferAttributes sm).display_mode = sm.display_mode) ∧
    ((tl.transferAttributes sl).color = sl.color ∧
      (tl.transferAttributes sl).line_width = sl.line_width ∧
      (tl.transferAttributes sl).line_type = sl.line_type) :=
  ⟨rfl, ⟨rfl, rfl⟩, rfl, rfl, rfl⟩

/-- C4: `move`, `rotate`, `reflect` and `scale` replace the stored geometry
with the result of delegating to the wrapped geometry value's corresponding
operation (rotate converting its angle from degrees to radians), and leave
color, line_width, line_type, display_mode and user_data unchanged. -/
theorem transform_ops_delegate_and_preserve_attributes {G V P U : Type}
    (ops : GeometryOps G V P) (w : LineCurveBase2D G U)
    (m : SingleColorModeBase2D G U) (vec normal : V) (angle factor : ℝ)
    (origin : P) (sOrigin : Option P) :
    ((w.move ops vec).geometry = ops.move w.geometry vec ∧
      (w.rotate ops angle origin).geometry
        = ops.rotate w.geometry (radians angle) origin ∧
      (w.reflect ops normal origin).geometry
        = ops.reflect w.geometry normal origin ∧
      (w.scale ops factor sOrigin).geometry
        = ops.scale w.geometry factor sOrigin) ∧
    ((w.move ops vec).color = w.color ∧
      (w.move ops vec).line_width = w.line_width ∧
      (w.move ops vec).line_type = w.line_type ∧
      (w.move ops vec).user_data = w.user_data) ∧
    ((w.rotate ops angle origin).color = w.color ∧
      (w.rotate ops angle origin).line_width = w.line_width ∧
      (w.rotate ops angle origin).line_type = w.line_type ∧
      (w.rotate ops angle origin).user_data = w.user_data) ∧
    ((w.reflect ops normal origin).color = w.color ∧
      (w.reflect ops normal origin).line_width = w.line_width ∧
      (w.reflect ops normal origin).line_type = w.line_type ∧
      (w.reflect ops normal origin).user_data = w.user_data) ∧
    ((w.scale ops factor sOrigin).color = w.color ∧
      (w.scale ops factor sOrigin).line_width = w.line_width ∧
      (w.scale ops factor sOrigin).line_type = w.line_type ∧
      (w.scale ops factor sOrigin).user_data = w.user_data) ∧
    ((m.move ops vec).geometry = ops.move m.geometry vec ∧
      (m.rotate ops angle origin).geometry
        = ops.rotate m.geometry (radians angle) origin ∧
      (m.reflect ops normal origin).geometry
        = ops.reflect m.geometry normal origin ∧
      (m.scale ops factor sOrigin).geometry
        = ops.scale m.geometry factor sOrigin) ∧
    ((m.move ops vec).color = m.color ∧
      (m.move ops vec).display_mode = m.display_mode ∧
      (m.move ops vec).user_data = m.user_data) ∧
    ((m.rotate ops angle origin).color = m.color ∧
      (m.rotate ops angle origin).display_mode = m.display_mode ∧
      (m.rotate ops angle origin).user_data = m.user_data) ∧
    ((m.reflect ops normal origin).color = m.color ∧
      (m.reflect ops normal origin).display_mode = m.display_mode ∧
      (m.reflect ops normal origin).user_data = m.user_data) ∧
    ((m.scale ops factor sOrigin).color = m.color ∧
      (m.scale ops factor sOrigin).display_mode = m.display_mode ∧
      (m.scale ops factor sOrigin).user_data = m.user_data) :=
  ⟨⟨rfl, rfl, rfl, rfl⟩, ⟨rfl, rfl, rfl, rfl⟩, ⟨rfl, rfl, rfl, rfl⟩,
    ⟨rfl, rfl, rfl, rfl⟩, ⟨rfl, rfl, rfl, rfl⟩, ⟨rfl, rfl, rfl, rfl⟩,
    ⟨rfl, rfl, rfl⟩, ⟨rfl, rfl, rfl⟩, ⟨rfl, rfl, rfl⟩, ⟨rfl, rfl, rfl⟩⟩

/-- C5: the `color` setter turns the `None` sentinel into opaque black
(0,0,0,255), stores a `Color` unchanged, and rejects any other type with an
error naming the received type, never coercing it. -/
theorem color_setter_sentinel_and_type_check :
    colorValidate .none = .ok ⟨0, 0, 0, 255⟩ ∧
    (∀ c : Color, colorValidate (.color c) = .ok c) ∧
    (∀ typeName : String, colorValidate (.other typeName) = .error (.assertionError
      ("Expected Color for ladybug_display object color. Got "
        ++ typeName ++ "."))) :=
  ⟨rfl, fun _ => rfl, fun _ => rfl⟩

/-- C6: the `line_width` setter stores the `default` sentinel as-is and
passes any other value through `float_positive`, which accepts every value
strictly greater than 0 and rejects 0 and every negative value with a
`ValueError` naming 'line width'. -/
theorem line_width_setter_default_and_positive (q : ℚ) :
    lineWidthValidate .default = .ok .default ∧
    (0 < q → lineWidthValidate (.val q) = .ok (.val q)) ∧
    (q ≤ 0 → lineWidthValidate (.val q) = .error (.valueError
      ("Input number for line width must be positive. Got "
        ++ toString q ++ "."))) := by
  refine ⟨rfl, fun h => ?_, fun h => ?_⟩
  · simp [lineWidthValidate, float_positive, h]
  · simp [lineWidthValidate, float_positive, not_lt.mpr h]

/-- Witness for C6 at line widths 2, 0 and -1. -/
theorem line_width_setter_default_and_positive_witness :
    lineWidthValidate (.val 2) = .ok (.val 2) ∧
    lineWidthValidate (.val 0) = .error (.valueError
      ("Input number for line width must be positive. Got "
        ++ toString (0 : ℚ) ++ ".")) ∧
    lineWidthValidate (.val (-1)) = .error (.valueError
      ("Input number for line width must be positive. Got "
        ++ toString (-1 : ℚ) ++ ".")) :=
  ⟨(line_width_setter_default_and_positive 2).2.1 (by norm_num),
    (line_width_setter_default_and_positive 0).2.2 (by norm_num),
    (line_width_setter_default_and_positive (-1)).2.2 (by norm_num)⟩

/-- C8: after the extension module's import-time effect, the `Compass` class
has `to_vis_set` equal to `compass_to_vis_set` and the `Sunpath` class has
`to_vis_set` equal to `sunpath_to_vis_set`, while every other attribute of
either class is unmodified. -/
theorem extend_ladybug_attaches_to_vis_set (st : ExtState) (attr : String)
    (h : attr ≠ "to_vis_set") :
    (extendLadybug st).compassCls "to_vis_set" = some .compass_to_vis_set ∧
    (extendLadybug st).sunpathCls "to_vis_set" = some .sunpath_to_vis_set ∧
    (extendLadybug st).compassCls attr = st.compassCls attr ∧
    (extendLadybug st).sunpathCls attr = st.sunpathCls attr := by
  refine ⟨?_, ?_, ?_, ?_⟩ <;> simp [extendLadybug, setattrClass, h]

/-- Witness for C8 on fresh attribute tables and the attribute 'radius'. -/
theorem extend_ladybug_attaches_to_vis_set_witness :
    (extendLadybug freshExtState).compassCls "to_vis_set"
        = some .compass_to_vis_set ∧
    (extendLadybug freshExtState).sunpathCls "to_vis_set"
        = some .sunpath_to_vis_set ∧
    (extendLadybug freshExtState).compassCls "radius"
        = freshExtState.compassCls "radius" ∧
    (extendLadybug freshExtState).sunpathCls "radius"
        = freshExtState.sunpathCls "radius" :=
  extend_ladybug_attaches_to_vis_set freshExtState "radius" (by decide)

/-- On a lowered `str` input the Python-level loop agrees with the
string-level loop. -/
theorem matchEnumMemberPy_str (keys : List String) (s : String) :
    matchEnumMemberPy keys (.str s) = matchEnumMember keys s := rfl

/-- A lowered `bytes` input never matches: `str == bytes` is always `False`
in Python 3. -/
theorem matchEnumMemberPy_bytes (keys : List String) (b : String) :
    matchEnumMemberPy keys (.bytes b) = none :=
  List.find?_eq_none.mpr (fun k _ => by simp [strEqPy])

/-- C2: on a string input matching an enumerated member case-insensitively,
the `line_type` / `display_mode` setter stores exactly that member's canonical
casing; on a string matching no member it raises the `ValueError` listing the
valid set and stores nothing. -/
theorem enum_setters_normalize_or_reject {G U : Type} (w : LineCurveBase2D G U)
    (m : SingleColorModeBase2D G U) (s key : String) :
    (key ∈ LINE_TYPES → pyLower key = pyLower s →
      w.setLineTypePy (.str s) = ({ w with line_type := key }, none)) ∧
    ((∀ k ∈ LINE_TYPES, pyLower k ≠ pyLower s) →
      w.setLineTypePy (.str s) = (w, some (.valueError
        ("line_type " ++ s ++ " is not recognized.\nChoose from the "
          ++ "following:\n" ++ toString LINE_TYPES)))) ∧
    (key ∈ DISPLAY_MODES → pyLower key = pyLower s →
      m.setDisplayModePy (.str s) = ({ m with display_mode := key }, none)) ∧
    ((∀ k ∈ DISPLAY_MODES, pyLower k ≠ pyLower s) →
      m.setDisplayModePy (.str s) = (m, some (.valueError
        ("display_mode " ++ s ++ " is not recognized.\nChoose from the "
          ++ "following:\n" ++ toString DISPLAY_MODES)))) := by
  refine ⟨fun hmem hlow => ?_, fun hnone => ?_, fun hmem hlow => ?_,
    fun hnone => ?_⟩
  · have hfind : matchEnumMember LINE_TYPES (pyLower s) = some key := by
      rw [← hlow]
      fin_cases hmem <;> rfl
    simp [LineCurveBase2D.setLineTypePy, pyLowerAttr, matchEnumMemberPy_str,
      pyFormat, hfind]
  · have hfind : matchEnumMember LINE_TYPES (pyLower s) = none :=
      List.find?_eq_none.mpr (fun k hk => by simpa using hnone k hk)
    simp [LineCurveBase2D.setLineTypePy, pyLowerAttr, matchEnumMemberPy_str,
      pyFormat, hfind]
  · have hfind : matchEnumMember DISPLAY_MODES (pyLower s) = some key := by
      rw [← hlow]
      fin_cases hmem <;> rfl
    simp [SingleColorModeBase2D.setDisplayModePy, pyLowerAttr,
      matchEnumMemberPy_str, pyFormat, hfind]
  · have hfind : matchEnumMember DISPLAY_MODES (pyLower s) = none :=
      List.find?_eq_none.mpr (fun k hk => by simpa using hnone k hk)
    simp [SingleColorModeBase2D.setDisplayModePy, pyLowerAttr,
      matchEnumMemberPy_str, pyFormat, hfind]

/-- Witness for C2: 'dashDOT' normalizes to 'DashDot', 'wireFRAME' to
'Wireframe'; 'bogus' is rejected by both setters with the documented error. -/
theorem enum_setters_normalize_or_reject_witness :
    sampleLineCurve.setLineTypePy (.str "dashDOT")
      = ({ sampleLineCurve with line_type := "DashDot" }, none) ∧
    sampleLineCurve.setLineTypePy (.str "bogus")
      = (sampleLineCurve, some (.valueError
        ("line_type " ++ "bogus" ++ " is not recognized.\nChoose from the "
          ++ "following:\n" ++ toString LINE_TYPES))) ∧
    sampleColorMode.setDisplayModePy (.str "wireFRAME")
      = ({ sampleColorMode with display_mode := "Wireframe" }, none) ∧
    sampleColorMode.setDisplayModePy (.str "bogus")
      = (sampleColorMode, some (.valueError
        ("display_mode " ++ "bogus" ++ " is not recognized.\nChoose from the "
          ++ "following:\n" ++ toString DISPLAY_MODES))) :=
  ⟨(enum_setters_normalize_or_reject sampleLineCurve sampleColorMode
      "dashDOT" "DashDot").1 (by decide) rfl,
    (enum_setters_normalize_or_reject sampleLineCurve sampleColorMode
      "bogus" "DashDot").2.1 (by decide),
    (enum_setters_normalize_or_reject sampleLineCurve sampleColorMode
      "wireFRAME" "Wireframe").2.2.1 (by decide) rfl,
    (enum_setters_normalize_or_reject sampleLineCurve sampleColorMode
      "bogus" "Wireframe").2.2.2 (by decide)⟩

/-- C9: every attribute setter validates before assigning, so whenever a
setter call raises, the object's state after the call equals its state before
the call (the targeted attribute and every other field are untouched). -/
theorem setters_atomic_on_error {G U : Type} (w : LineCurveBase2D G U)
    (m : SingleColorModeBase2D G U) (cv : PyColorVal) (lw : LineWidth)
    (sv : PyStrVal) :
    ((w.setColorPy cv).2.isSome = true → (w.setColorPy cv).1 = w) ∧
    ((w.setLineWidthPy lw).2.isSome = true → (w.setLineWidthPy lw).1 = w) ∧
    ((w.setLineTypePy sv).2.isSome = true → (w.setLineTypePy sv).1 = w) ∧
    ((m.setColorPy cv).2.isSome = true → (m.setColorPy cv).1 = m) ∧
    ((m.setDisplayModePy sv).2.isSome = true → (m.setDisplayModePy sv).1 = m) := by
  refine ⟨?_, ?_, ?_, ?_, ?_⟩
  · rcases h : colorValidate cv with c | e <;>
      simp [LineCurveBase2D.setColorPy, h]
  · rcases h : lineWidthValidate lw with l | e <;>
      simp [LineCurveBase2D.setLineWidthPy, h]
  · rcases sv with s | b | t
    · rcases h : matchEnumMemberPy LINE_TYPES (.str (pyLower s)) with _ | k <;>
        simp [LineCurveBase2D.setLineTypePy, pyLowerAttr, h]
    · rcases h : matchEnumMemberPy LINE_TYPES (.bytes (pyLower b)) with _ | k <;>
        simp [LineCurveBase2D.setLineTypePy, pyLowerAttr, h]
    · simp [LineCurveBase2D.setLineTypePy, pyLowerAttr]
  · rcases h : colorValidate cv with c | e <;>
      simp [SingleColorModeBase2D.setColorPy, h]
  · rcases sv with s | b | t
    · rcases h : matchEnumMemberPy DISPLAY_MODES (.str (pyLower s)) with _ | k <;>
        simp [SingleColorModeBase2D.setDisplayModePy, pyLowerAttr, h]
    · rcases h : matchEnumMemberPy DISPLAY_MODES (.bytes (pyLower b)) with _ | k <;>
        simp [SingleColorModeBase2D.setDisplayModePy, pyLowerAttr, h]
    · simp [SingleColorModeBase2D.setDisplayModePy, pyLowerAttr]

/-- Witness for C9 at failing inputs: a non-Color color, line width -1, and
the unrecognized string 'bogus'. -/
theorem setters_atomic_on_error_witness :
    (sampleLineCurve.setColorPy (.other "int")).1 = sampleLineCurve ∧
    (sampleLineCurve.setLineWidthPy (.val (-1))).1 = sampleLineCurve ∧
    (sampleLineCurve.setLineTypePy (.str "bogus")).1 = sampleLineCurve ∧
    (sampleColorMode.setColorPy (.other "int")).1 = sampleColorMode ∧
    (sampleColorMode.setDisplayModePy (.str "bogus")).1 = sampleColorMode :=
  ⟨(setters_atomic_on_error sampleLineCurve sampleColorMode (.other "int")
      (.val (-1)) (.str "bogus")).1 (by decide),
    (setters_atomic_on_error sampleLineCurve sampleColorMode (.other "int")
      (.val (-1)) (.str "bogus")).2.1 (by decide),
    (setters_atomic_on_error sampleLineCurve sampleColorMode (.other "int")
      (.val (-1)) (.str "bogus")).2.2.1 (by decide),
    (setters_atomic_on_error sampleLineCurve sampleColorMode (.other "int")
      (.val (-1)) (.str "bogus")).2.2.2.1 (by decide),
    (setters_atomic_on_error sampleLineCurve sampleColorMode (.other "int")
      (.val (-1)) (.str "bogus")).2.2.2.2 (by decide)⟩

/-- Counterexample to C10 as stated: `b'bogus'` is not a `str`, yet both
setters raise the documented `ValueError` for it — in Python 3 `bytes` has
`.lower()`, so the setter passes the case-normalization step, and
`str == bytes` is always `False`, so the loop falls through to the
documented raise. -/
theorem bytes_input_draws_documented_value_error :
    isPyStr (.bytes "bogus") = false ∧
    (sampleLineCurve.setLineTypePy (.bytes "bogus")).2
      = some (.valueError ("line_type " ++ pyFormat (.bytes "bogus")
          ++ " is not recognized.\nChoose from the "
          ++ "following:\n" ++ toString LINE_TYPES)) ∧
    (sampleColorMode.setDisplayModePy (.bytes "bogus")).2
      = some (.valueError ("display_mode " ++ pyFormat (.bytes "bogus")
          ++ " is not recognized.\nChoose from the "
          ++ "following:\n" ++ toString DISPLAY_MODES)) :=
  ⟨rfl, rfl, rfl⟩

/-- C10 (amended): the `line_type` / `display_mode` setter raises its
documented `ValueError` exactly when the input has a `.lower()` whose result
matches no enumerated member — a string whose lowercase form matches no
member, or any bytes value (bytes has `.lower()` but never compares equal to
a `str` member); an input with no `.lower()` (e.g. `None` or a number) fails
earlier, on the case-normalization step, with an `AttributeError` that is not
the documented `ValueError`. -/
theorem enum_setters_documented_error_classes {G U : Type}
    (w : LineCurveBase2D G U) (m : SingleColorModeBase2D G U) (v : PyStrVal) :
    ((∃ msg, (w.setLineTypePy v).2 = some (.valueError msg)) ↔
      ((∃ s, v = .str s ∧ ∀ k ∈ LINE_TYPES, pyLower k ≠ pyLower s) ∨
        (∃ b, v = .bytes b))) ∧
    (∀ t, v = .nonStr t → (w.setLineTypePy v).2
      = some (.attributeError (t ++ " object has no attribute lower"))) ∧
    ((∃ msg, (m.setDisplayModePy v).2 = some (.valueError msg)) ↔
      ((∃ s, v = .str s ∧ ∀ k ∈ DISPLAY_MODES, pyLower k ≠ pyLower s) ∨
        (∃ b, v = .bytes b))) ∧
    (∀ t, v = .nonStr t → (m.setDisplayModePy v).2
      = some (.attributeError (t ++ " object has no attribute lower"))) := by
  rcases v with s | b | t
  · refine ⟨?_, by simp, ?_, by simp⟩
    · rcases h : matchEnumMember LINE_TYPES (pyLower s) with _ | key
      · have hmsg : ∀ k ∈ LINE_TYPES, pyLower k ≠ pyLower s := by
          intro k hk
          have := List.find?_eq_none.mp h k hk
          simpa using this
        simp only [LineCurveBase2D.setLineTypePy, pyLowerAttr,
          matchEnumMemberPy_str, h]
        exact ⟨fun _ => Or.inl ⟨s, rfl, hmsg⟩, fun _ => ⟨_, rfl⟩⟩
      · have hmem : key ∈ LINE_TYPES := List.mem_of_find?_eq_some h
        have hkey : pyLower key = pyLower s := by
          have := List.find?_some h
          simpa using this
        simp only [LineCurveBase2D.setLineTypePy, pyLowerAttr,
          matchEnumMemberPy_str, h]
        constructor
        · rintro ⟨msg, hmsg⟩
          simp at hmsg
        · rintro (⟨s', hs', hall⟩ | ⟨b, hb⟩)
          · cases hs'
            exact absurd hkey (hall key hmem)
          · exact absurd hb (by simp)
    · rcases h : matchEnumMember DISPLAY_MODES (pyLower s) with _ | key
      · have hmsg : ∀ k ∈ DISPLAY_MODES, pyLower k ≠ pyLower s := by
          intro k hk
          have := List.find?_eq_none.mp h k hk
          simpa using this
        simp only [SingleColorModeBase2D.setDisplayModePy, pyLowerAttr,
          matchEnumMemberPy_str, h]
        exact ⟨fun _ => Or.inl ⟨s, rfl, hmsg⟩, fun _ => ⟨_, rfl⟩⟩
      · have hmem : key ∈ DISPLAY_MODES := List.mem_of_find?_eq_some h
        have hkey : pyLower key = pyLower s := by
          have := List.find?_some h
          simpa using this
        simp only [SingleColorModeBase2D.setDisplayModePy, pyLowerAttr,
          matchEnumMemberPy_str, h]
        constructor
        · rintro ⟨msg, hmsg⟩
          simp at hmsg
        · rintro (⟨s', hs', hall⟩ | ⟨b, hb⟩)
          · cases hs'
            exact absurd hkey (hall key hmem)
          · exact absurd hb (by simp)
  · refine ⟨?_, by simp, ?_, by simp⟩
    · simp only [LineCurveBase2D.setLineTypePy, pyLowerAttr,
        matchEnumMemberPy_bytes]
      exact ⟨fun _ => Or.inr ⟨b, rfl⟩, fun _ => ⟨_, rfl⟩⟩
    · simp only [SingleColorModeBase2D.setDisplayModePy, pyLowerAttr,
        matchEnumMemberPy_bytes]
      exact ⟨fun _ => Or.inr ⟨b, rfl⟩, fun _ => ⟨_, rfl⟩⟩
  · refine ⟨?_, ?_, ?_, ?_⟩
    · simp [LineCurveBase2D.setLineTypePy, pyLowerAttr]
    · rintro t' ht'
      cases ht'
      rfl
    · simp [SingleColorModeBase2D.setDisplayModePy, pyLowerAttr]
    · rintro t' ht'
      cases ht'
      rfl

/-- Witness for the amended C10: the string 'bogus' and the bytes value
b'bogus' both draw the documented ValueError; the non-string `None` draws an
AttributeError. -/
theorem enum_setters_documented_error_classes_witness :
    (∃ msg, (sampleLineCurve.setLineTypePy (.str "bogus")).2
      = some (.valueError msg)) ∧
    (∃ msg, (sampleLineCurve.setLineTypePy (.bytes "bogus")).2
      = some (.valueError msg)) ∧
    (sampleLineCurve.setLineTypePy (.nonStr "NoneType")).2
      = some (.attributeError ("NoneType" ++ " object has no attribute lower")) ∧
    (∃ msg, (sampleColorMode.setDisplayModePy (.bytes "bogus")).2
      = some (.valueError msg)) ∧
    (sampleColorMode.setDisplayModePy (.nonStr "NoneType")).2
      = some (.attributeError ("NoneType" ++ " object has no attribute lower")) :=
  ⟨(enum_setters_documented_error_classes sampleLineCurve
      sampleColorMode (.str "bogus")).1.mpr (Or.inl ⟨"bogus", rfl, by decide⟩),
    (enum_setters_documented_error_classes sampleLineCurve
      sampleColorMode (.bytes "bogus")).1.mpr (Or.inr ⟨"bogus", rfl⟩),
    (enum_setters_documented_error_classes sampleLineCurve
      sampleColorMode (.nonStr "NoneType")).2.1 "NoneType" rfl,
    (enum_setters_documented_error_classes sampleLineCurve
      sampleColorMode (.bytes "bogus")).2.2.1.mpr (Or.inr ⟨"bogus", rfl⟩),
    (enum_setters_documented_error_classes sampleLineCurve
      sampleColorMode (.nonStr "NoneType")).2.2.2 "NoneType" rfl⟩

/-- C7: the polyline wrapper over the square path (0,0), (2,0), (2,2), (0,2)
reports length 6, exactly 3 segments each of length 2, `p1` equal to the first
input point and `p2` equal to the last input point. -/
theorem square_polyline_wrapper_scenario :
    displayPolylineLength squareDisplayPolyline = 6 ∧
    (displayPolylineSegments squareDisplayPolyline).length = 3 ∧
    (displayPolylineSegments squareDisplayPolyline).map Segment3.length
      = [2, 2, 2] ∧
    displayPolylineP1 squareDisplayPolyline = ⟨0, 0, 0⟩ ∧
    displayPolylineP2 squareDisplayPolyline = ⟨0, 2, 0⟩ := by
  have h4 : Real.sqrt 4 = 2 := by
    rw [show (4 : ℝ) = 2 ^ 2 by norm_num]
    exact Real.sqrt_sq (by norm_num)
  have hmap : (displayPolylineSegments squareDisplayPolyline).map Segment3.length
      = [2, 2, 2] := by
    simp only [displayPolylineSegments, squareDisplayPolyline, squarePolyline,
      Polyline3.segments, List.zip, List.zipWith, List.map, Segment3.length,
      Point3.dist]
    norm_num [h4]
  have hsum : displayPolylineLength squareDisplayPolyline
      = ((displayPolylineSegments squareDisplayPolyline).map Segment3.length).sum :=
    rfl
  refine ⟨?_, rfl, hmap, rfl, rfl⟩
  rw [hsum, hmap]
  norm_num

/-- A point survives the external library's dict round trip. -/
theorem point3q_fromDict_toDict (p : Point3Q) :
    Point3Q.fromDict p.toDict = .ok p := by
  cases p
  rfl

/-- A serialized vertex list parses back to itself. -/
theorem parsePoints_fromDict_toDict (pts : List Point3Q) :
    parsePoints (pts.map Point3Q.toDict) = .ok pts := by
  induction pts with
  | nil => rfl
  | cons p rest ih =>
      simp only [List.map, parsePoints, point3q_fromDict_toDict, ih]
      rfl

/-- A polyline survives the external library's dict round trip. -/
theorem polylineq_fromDict_toDict (pl : PolylineQ) :
    PolylineQ.fromDict pl.toDict = .ok pl := by
  obtain ⟨vs⟩ := pl
  have step : PolylineQ.fromDict (PolylineQ.toDict ⟨vs⟩)
      = (do
          let pts ← parsePoints (vs.map Point3Q.toDict)
          return (⟨pts⟩ : PolylineQ)) := rfl
  rw [step, parsePoints_fromDict_toDict]
  rfl

/-- A cylinder survives the external library's dict round trip. -/
theorem cylinderq_fromDict_toDict (c : CylinderQ) :
    CylinderQ.fromDict c.toDict = .ok c := by
  obtain ⟨⟨cx, cy, cz⟩, ⟨ax, ay, az⟩, r⟩ := c
  rfl

/-- A color with valid channels survives the dict round trip. -/
theorem color_fromDict_toDict (c : Color) (h : colorValidB c = true) :
    colorFromDict (colorToDict c) = .ok c := by
  obtain ⟨r, g, b, a⟩ := c
  simp only [colorValidB, Bool.and_eq_true, decide_eq_true_eq] at h
  obtain ⟨⟨⟨h1, h2⟩, h3⟩, h4⟩ := h
  have step : colorFromDict (colorToDict ⟨r, g, b, a⟩)
      = if 0 ≤ (r : ℤ) ∧ (r : ℤ) ≤ 255 ∧ 0 ≤ (g : ℤ) ∧ (g : ℤ) ≤ 255
          ∧ 0 ≤ (b : ℤ) ∧ (b : ℤ) ≤ 255 ∧ 0 ≤ (a : ℤ) ∧ (a : ℤ) ≤ 255
        then .ok ⟨(r : ℤ).toNat, (g : ℤ).toNat, (b : ℤ).toNat, (a : ℤ).toNat⟩
        else .error "Color channels must be in 0..255" := rfl
  rw [step, if_pos]
  · simp
  · exact ⟨by omega, by omega, by omega, by omega, by omega, by omega,
      by omega, by omega⟩

/-- A canonical member passes its own setter unchanged: `line_type`. -/
theorem lineType_member_id (s : String) (h : s ∈ LINE_TYPES) :
    lineTypeValidate s = .ok s := by
  fin_cases h <;> rfl

/-- A canonical member passes its own setter unchanged: `display_mode`. -/
theorem displayMode_member_id (s : String) (h : s ∈ DISPLAY_MODES) :
    displayModeValidate s = .ok s := by
  fin_cases h <;> rfl

/-- A valid line width survives its dict round trip through the setter. -/
theorem lineWidth_fromDict_toDict (lw : LineWidth)
    (h : lineWidthValidB lw = true) :
    lineWidthFromDict (lineWidthToDict lw) = .ok lw := by
  cases lw with
  | default => rfl
  | val q =>
      have hq : 0 < q := by simpa [lineWidthValidB] using h
      simp [lineWidthFromDict, lineWidthToDict, float_positive, hq]

/-- A valid polyline wrapper deserializes back to itself. -/
theorem displayPolyline_fromDict_toDict (w : LineCurveBase2D PolylineQ (Option DVal))
    (h : validPolylineWrapper w = true) :
    displayPolylineFromDict (displayPolylineToDict w) = .ok w := by
  obtain ⟨geo, col, lw, lt, ud⟩ := w
  simp only [validPolylineWrapper, Bool.and_eq_true, decide_eq_true_eq] at h
  obtain ⟨⟨hc, hlw⟩, hlt⟩ := h
  cases ud with
  | none =>
      have step : displayPolylineFromDict
          (displayPolylineToDict ⟨geo, col, lw, lt, none⟩)
          = (do
              let g ← PolylineQ.fromDict geo.toDict
              let c ← colorFromDict (colorToDict col)
              let l ← lineWidthFromDict (lineWidthToDict lw)
              let t ← lineTypeValidate lt
              return ⟨g, c, l, t, none⟩) := rfl
      rw [step, polylineq_fromDict_toDict, color_fromDict_toDict col hc,
        lineWidth_fromDict_toDict lw hlw, lineType_member_id lt hlt]
      rfl
  | some d =>
      have step : displayPolylineFromDict
          (displayPolylineToDict ⟨geo, col, lw, lt, some d⟩)
          = (do
              let g ← PolylineQ.fromDict geo.toDict
              let c ← colorFromDict (colorToDict col)
              let l ← lineWidthFromDict (lineWidthToDict lw)
              let t ← lineTypeValidate lt
              return ⟨g, c, l, t, some d⟩) := rfl
      rw [step, polylineq_fromDict_toDict, color_fromDict_toDict col hc,
        lineWidth_fromDict_toDict lw hlw, lineType_member_id lt hlt]
      rfl

/-- A valid cylinder wrapper deserializes back to itself. -/
theorem displayCylinder_fromDict_toDict
    (w : SingleColorModeBase2D CylinderQ (Option DVal))
    (h : validCylinderWrapper w = true) :
    displayCylinderFromDict (displayCylinderToDict w) = .ok w := by
  obtain ⟨geo, col, dm, ud⟩ := w
  simp only [validCylinderWrapper, Bool.and_eq_true, decide_eq_true_eq] at h
  obtain ⟨hc, hdm⟩ := h
  cases ud with
  | none =>
      have step : displayCylinderFromDict
          (displayCylinderToDict ⟨geo, col, dm, none⟩)
          = (do
              let g ← CylinderQ.fromDict geo.toDict
              let c ← colorFromDict (colorToDict col)
              let m ← displayModeValidate dm
              return ⟨g, c, m, none⟩) := rfl
      rw [step, cylinderq_fromDict_toDict, color_fromDict_toDict col hc,
        displayMode_member_id dm hdm]
      rfl
  | some d =>
      have step : displayCylinderFromDict
          (displayCylinderToDict ⟨geo, col, dm, some d⟩)
          = (do
              let g ← CylinderQ.fromDict geo.toDict
              let c ← colorFromDict (colorToDict col)
              let m ← displayModeValidate dm
              return ⟨g, c, m, some d⟩) := rfl
      rw [step, cylinderq_fromDict_toDict, color_fromDict_toDict col hc,
        displayMode_member_id dm hdm]
      rfl

/-- C1: for every valid display wrapper (polyline or cylinder),
`from_dict(x.to_dict()).to_dict()` equals `x.to_dict()`: deserialization
followed by reserialization reproduces the dictionary exactly. -/
theorem display_dict_round_trip
    (w : LineCurveBase2D PolylineQ (Option DVal))
    (c : SingleColorModeBase2D CylinderQ (Option DVal))
    (hw : validPolylineWrapper w = true) (hc : validCylinderWrapper c = true) :
    (displayPolylineFromDict (displayPolylineToDict w)).map displayPolylineToDict
      = .ok (displayPolylineToDict w) ∧
    (displayCylinderFromDict (displayCylinderToDict c)).map displayCylinderToDict
      = .ok (displayCylinderToDict c) := by
  rw [displayPolyline_fromDict_toDict w hw, displayCylinder_fromDict_toDict c hc]
  exact ⟨rfl, rfl⟩

/-- Witness for C1 on the round-trip test instances. -/
theorem display_dict_round_trip_witness :
    validPolylineWrapper samplePolylineWrapper = true ∧
    validCylinderWrapper sampleCylinderWrapper = true ∧
    (displayPolylineFromDict
        (displayPolylineToDict samplePolylineWrapper)).map displayPolylineToDict
      = .ok (displayPolylineToDict samplePolylineWrapper) ∧
    (displayCylinderFromDict
        (displayCylinderToDict sampleCylinderWrapper)).map displayCylinderToDict
      = .ok (displayCylinderToDict sampleCylinderWrapper) :=
  ⟨rfl, rfl,
    (display_dict_round_trip samplePolylineWrapper sampleCylinderWrapper
      rfl rfl).1,
    (display_dict_round_trip samplePolylineWrapper sampleCylinderWrapper
      rfl rfl).2⟩

end LadybugDisplay
